import Mathlib

/-!
Verification of the Jhagmag LED Controller against its specification.

Shallow embedding of the Python sources:
  * `modules/serial_connection.py` — the device link (`SerialConnection`):
    wire encodings of `send_timeout`, `set_mode`, `send_color`, and the
    `close` teardown path.
  * `modules/audio_visualizer.py` — the audio engine (`AudioVisualizer`):
    per-tick band update (noise gate / decay / running maximum) and the
    audio-to-RGB mapping.
  * `main.py` — the coordinator (`LEDControllerUI.on_tab_changed` /
    `unactiveTab`): mode-switch transition over engine running flags.

Machine reals of the Python code are embedded as exact rationals (the
constants involved, 0.02, 0.05, 1.2, are used symbolically by the spec);
Python exceptions are `Except` results; writes to the serial transport
are collected as explicit traces.
-/

namespace Jhagmag

/-- Python exceptions that the embedded fragments can raise. -/
inductive PyErr where
  | valueError
  | attributeError
  deriving DecidableEq, Repr

/-! ## Device link (`modules/serial_connection.py`)

The transport field `self.arduino` is `None` (no transport object) or a
serial object carrying its `is_open` flag: `Option Bool`.  A write is a
list of byte values; a call's effect is the list of writes it performs. -/

/-- Truthiness-and-open test `self.arduino and self.arduino.is_open`
(`None` is falsy, a serial object is truthy). -/
def isOpen : Option Bool → Bool
  | none => false
  | some b => b

/-- Python `bytes([...])`: succeeds only when every element is in
`[0, 256)`, otherwise raises `ValueError`. -/
def pyBytes (xs : List ℤ) : Except PyErr (List ℕ) :=
  if ∀ x ∈ xs, 0 ≤ x ∧ x < 256 then .ok (xs.map Int.toNat)
  else .error .valueError

/-- `SerialConnection.send_timeout`: drop when the link is not open,
otherwise write the two bytes `[0x01, enabled]`. -/
def send_timeout (arduino : Option Bool) (enabled : Bool) : List (List ℕ) :=
  if ¬ isOpen arduino then []
  else [[1, if enabled then 1 else 0]]

/-- The `modes` dictionary of `SerialConnection.set_mode`. -/
def modeCode (mode : String) : Option ℕ :=
  if mode = "OFF" then some 0
  else if mode = "Solid" then some 0
  else if mode = "Fade" then some 1
  else if mode = "Cycle" then some 2
  else if mode = "Rainbow Cycle" then some 3
  else if mode = "Breathing" then some 4
  else if mode = "Random" then some 5
  else none

/-- `SerialConnection.set_mode`: drop when the link is not open; write
`[0x02, code]` for a known mode name; for an unknown name only print a
message (no write). -/
def set_mode (arduino : Option Bool) (mode : String) : List (List ℕ) :=
  if ¬ isOpen arduino then []
  else
    match modeCode mode with
    | some c => [[2, c]]
    | none => []

/-- `SerialConnection.send_color`: drop when the link is not open,
otherwise write `bytes([0x03, red, green, blue])` (which raises
`ValueError` on an out-of-range channel). -/
def send_color (arduino : Option Bool) (red green blue : ℤ) :
    Except PyErr (List (List ℕ)) :=
  if ¬ isOpen arduino then .ok []
  else
    match pyBytes [3, red, green, blue] with
    | .ok bs => .ok [bs]
    | .error e => .error e

/-! ### `SerialConnection.close`

`close` runs, in order: `self.stop_thread = True` (cannot fail),
`self.thread.join()` (`thread` exists only if `start_thread` ran),
`self.arduino.close()` (`arduino` is `None` until `connect`), and
`del SerialConnection._instance`.  Each failure is an `AttributeError`;
the embedding records the failing site. -/

/-- The attribute-lookup site at which `close` raises. -/
inductive CloseFail where
  | threadAttr    -- `self.thread` does not exist
  | arduinoNone   -- `self.arduino` is `None`, so `.close()` fails
  | instanceAttr  -- `SerialConnection._instance` does not exist
  deriving DecidableEq, Repr

/-- The attributes `close` consults: whether `self.thread` was ever set
(by `start_thread`), whether `self.arduino` is still `None`, and whether
the class attribute `SerialConnection._instance` exists. -/
structure ConnAttrs where
  hasThread : Bool
  arduinoIsNone : Bool
  instanceDefined : Bool
  deriving DecidableEq, Repr

/-- `SerialConnection.close`, step by step; every failure is an
`AttributeError` at the recorded site. -/
def close (s : ConnAttrs) : Except CloseFail Unit :=
  if s.hasThread = false then .error .threadAttr
  else if s.arduinoIsNone then .error .arduinoNone
  else if s.instanceDefined = false then .error .instanceAttr
  else .ok ()

/-! ## Audio engine (`modules/audio_visualizer.py`)

Constants from `AudioVisualizer.__init__`; levels are rationals. -/

/-- `self.NOISE_GATE_THRESHOLD = 0.02`. -/
def NOISE_GATE_THRESHOLD : ℚ := 1/50

/-- `self.FADE_THRESHOLD = 0.05`. -/
def FADE_THRESHOLD : ℚ := 1/20

/-- `decay_rate = 1 - (1 / (self.RATE * self.DECAY_TIME))`, recomputed
each tick in `AudioVisualizer.update` from the sample rate and the
decay duration. -/
def decay_rate (rate decayTime : ℚ) : ℚ := 1 - 1 / (rate * decayTime)

/-- Per-band mutable pair: `current_*` and `max_*` of `AudioVisualizer`. -/
structure BandState where
  current : ℚ
  maxv : ℚ
  deriving DecidableEq, Repr

/-- Initial per-band state from `AudioVisualizer.__init__`:
`current_* = 0`, `max_* = 1`. -/
def initBand : BandState := ⟨0, 1⟩

/-- One band's step of `AudioVisualizer.update`: if the measured level
exceeds the noise gate, adopt it and raise the running maximum;
otherwise decay the current level by `decay_rate`, floored at zero. -/
def updateBand (rate decayTime level : ℚ) (s : BandState) : BandState :=
  if level > NOISE_GATE_THRESHOLD then
    { current := level, maxv := max s.maxv level }
  else
    { current := max (s.current - decay_rate rate decayTime) 0,
      maxv := s.maxv }

/-- A band's state after processing a sequence of per-tick measured
levels. -/
def runBand (rate decayTime : ℚ) (levels : List ℚ) (s : BandState) :
    BandState :=
  levels.foldl (fun st l => updateBand rate decayTime l st) s

/-- Python `int(q)`: truncation toward zero. -/
def pyInt (q : ℚ) : ℤ := if 0 ≤ q then ⌊q⌋ else ⌈q⌉

/-- `amplitude_to_rgb` inside `AudioVisualizer.audio_to_rgb`
(`min_rgb = 25`): zero at or below 0.05, otherwise
`int(min_rgb + ((255 - min_rgb) * level * multiplier))` clamped
to `[0, 255]`. -/
def amplitude_to_rgb (level multiplier : ℚ) : ℤ :=
  if level ≤ 1/20 then 0
  else max 0 (min 255 (pyInt (25 + (255 - 25) * level * multiplier)))

/-- `AudioVisualizer.audio_to_rgb`: bass with multiplier 1.2, mid and
treble with the default multiplier 1. -/
def audio_to_rgb (bass_level mid_level treble_level : ℚ) : ℤ × ℤ × ℤ :=
  (amplitude_to_rgb bass_level (6/5),
   amplitude_to_rgb mid_level 1,
   amplitude_to_rgb treble_level 1)

/-! ## Coordinator (`main.py`)

`on_tab_changed` / `unactiveTab` of `LEDControllerUI`, over the running
flags of the two engines.  An engine attribute that does not exist
(`hasattr` false) is `none`; otherwise `some running`.  Device-link
calls made during the transition are recorded as emissions. -/

/-- A device-link call issued by the coordinator (the link may drop it
if closed; the coordinator's contract is about the calls it makes). -/
inductive Emission where
  | setMode (mode : String)
  | sendTimeout (enabled : Bool)
  | sendColor (r g b : ℤ)
  deriving DecidableEq, Repr

/-- The coordinator state read by `on_tab_changed`: the two engines'
`running` flags (`none` when the attribute does not exist), the
selected pattern button's text, and the current color. -/
structure UIState where
  visRunning : Option Bool
  scrRunning : Option Bool
  selected : Option String
  R : ℤ
  G : ℤ
  B : ℤ
  deriving DecidableEq, Repr

/-- `hasattr(self, e) and e.is_running()`. -/
def engineRunning : Option Bool → Bool
  | none => false
  | some b => b

/-- `LEDControllerUI.unactiveTab`: set device mode to `"OFF"`, then stop
the visualizer if it is running (`AudioVisualizer.stop` only flips the
flag), then stop the screen engine if it is running
(`ScreenResponsive.stop` first sets device mode to `"OFF"`). -/
def unactiveTab (s : UIState) : UIState × List Emission :=
  ({ s with
      visRunning :=
        if engineRunning s.visRunning then some false else s.visRunning,
      scrRunning :=
        if engineRunning s.scrRunning then some false else s.scrRunning },
   Emission.setMode "OFF" ::
     (if engineRunning s.scrRunning then [Emission.setMode "OFF"] else []))

/-- The tab-specific tail of `on_tab_changed`, acting on the state left
by `unactiveTab`: tab 0 re-sends the color, tab 1 re-sends the selected
pattern, tab 2 enables the timeout and starts the visualizer
(`AttributeError` if the attribute does not exist), other tabs do
nothing more. -/
def activateTab (index : ℕ) (s : UIState) :
    List Emission × Except PyErr UIState :=
  match index with
  | 0 => ([.sendTimeout false, .sendColor s.R s.G s.B], .ok s)
  | 1 => (.sendTimeout false ::
            (match s.selected with
             | some name => [Emission.setMode name]
             | none => []),
          .ok s)
  | 2 => ([.sendTimeout true],
          match s.visRunning with
          | none => .error .attributeError
          | some _ => .ok { s with visRunning := some true })
  | _ => ([], .ok s)

/-- `LEDControllerUI.on_tab_changed`: first `unactiveTab`, then the
tab-specific activation; result is the full emission trace and the
final state (or the `AttributeError` from `self.visualizer.start()`). -/
def on_tab_changed (index : ℕ) (s : UIState) :
    List Emission × Except PyErr UIState :=
  let s1 := (unactiveTab s).1
  match index with
  | 0 => ((unactiveTab s).2 ++
            [.sendTimeout false, .sendColor s1.R s1.G s1.B], .ok s1)
  | 1 => ((unactiveTab s).2 ++
            (.sendTimeout false ::
              (match s1.selected with
               | some name => [Emission.setMode name]
               | none => [])),
          .ok s1)
  | 2 => ((unactiveTab s).2 ++ [.sendTimeout true],
          match s1.visRunning with
          | none => .error .attributeError
          | some _ => .ok { s1 with visRunning := some true })
  | _ => ((unactiveTab s).2, .ok s1)

/-! ## Theorems about the device link -/

/-- The link-open test holds exactly when a transport object exists and
its `is_open` flag is set. -/
lemma isOpen_eq_true_iff (a : Option Bool) : isOpen a = true ↔ a = some true := by
  cases a with
  | none => simp [isOpen]
  | some b => cases b <;> simp [isOpen]

/-- C3: for all integers r, g, b each in [0,255], `send_color(r, g, b)`
called while the link is open writes exactly the four-byte sequence
`[0x03, r, g, b]` to the transport in a single write, with no other
bytes. -/
theorem C3_send_color_encoding (arduino : Option Bool)
    (h : isOpen arduino = true) (r g b : ℤ)
    (hr : 0 ≤ r ∧ r ≤ 255) (hg : 0 ≤ g ∧ g ≤ 255) (hb : 0 ≤ b ∧ b ≤ 255) :
    send_color arduino r g b = .ok [[3, r.toNat, g.toNat, b.toNat]] := by
  obtain rfl := (isOpen_eq_true_iff arduino).mp h
  have hcond : ∀ x ∈ [(3 : ℤ), r, g, b], 0 ≤ x ∧ x < 256 := by
    intro x hx
    simp only [List.mem_cons, List.not_mem_nil, or_false] at hx
    rcases hx with rfl | rfl | rfl | rfl <;> omega
  simp [send_color, pyBytes, isOpen, hcond]

/-- Witness for C3 at the concrete open link and color (250, 0, 17). -/
theorem C3_send_color_encoding_witness :
    send_color (some true) 250 0 17 = .ok [[3, 250, 0, 17]] :=
  C3_send_color_encoding (some true) rfl 250 0 17
    ⟨by decide, by decide⟩ ⟨by decide, by decide⟩ ⟨by decide, by decide⟩

/-- C4: for every known mode name, `set_mode` called while the link is
open writes exactly the two bytes `[0x02, code]` with OFF=0, Solid=0,
Fade=1, Cycle=2, "Rainbow Cycle"=3, Breathing=4, Random=5; for every
name outside this set it writes nothing. -/
theorem C4_set_mode_table (arduino : Option Bool)
    (h : isOpen arduino = true) (m : String)
    (h1 : m ≠ "OFF") (h2 : m ≠ "Solid") (h3 : m ≠ "Fade")
    (h4 : m ≠ "Cycle") (h5 : m ≠ "Rainbow Cycle") (h6 : m ≠ "Breathing")
    (h7 : m ≠ "Random") :
    set_mode arduino "OFF" = [[2, 0]]
    ∧ set_mode arduino "Solid" = [[2, 0]]
    ∧ set_mode arduino "Fade" = [[2, 1]]
    ∧ set_mode arduino "Cycle" = [[2, 2]]
    ∧ set_mode arduino "Rainbow Cycle" = [[2, 3]]
    ∧ set_mode arduino "Breathing" = [[2, 4]]
    ∧ set_mode arduino "Random" = [[2, 5]]
    ∧ set_mode arduino m = [] := by
  obtain rfl := (isOpen_eq_true_iff arduino).mp h
  refine ⟨?_, ?_, ?_, ?_, ?_, ?_, ?_, ?_⟩ <;>
    simp [set_mode, modeCode, isOpen, h1, h2, h3, h4, h5, h6, h7]

/-- Witness for C4 at the open link and the unknown name "Strobe". -/
theorem C4_set_mode_table_witness :
    set_mode (some true) "Rainbow Cycle" = [[2, 3]]
    ∧ set_mode (some true) "Strobe" = [] :=
  ⟨(C4_set_mode_table (some true) rfl "Strobe" (by decide) (by decide)
      (by decide) (by decide) (by decide) (by decide) (by decide)).2.2.2.2.1,
   (C4_set_mode_table (some true) rfl "Strobe" (by decide) (by decide)
      (by decide) (by decide) (by decide) (by decide)
      (by decide)).2.2.2.2.2.2.2⟩

/-- C5: with the link not open (no transport object, or transport
closed), `send_timeout`, `set_mode` and `send_color` each return
normally without writing any bytes and without raising. -/
theorem C5_closed_link_noop (arduino : Option Bool)
    (h : isOpen arduino = false) (enabled : Bool) (m : String)
    (r g b : ℤ) :
    send_timeout arduino enabled = []
    ∧ set_mode arduino m = []
    ∧ send_color arduino r g b = .ok [] := by
  refine ⟨?_, ?_, ?_⟩ <;> simp [send_timeout, set_mode, send_color, h]

/-- Witness for C5 with no transport object. -/
theorem C5_closed_link_noop_witness :
    send_timeout none true = []
    ∧ set_mode none "Solid" = []
    ∧ send_color none 500 (-1) 0 = .ok [] :=
  C5_closed_link_noop none rfl true "Solid" 500 (-1) 0

/-- C9: given that no code in the repository ever assigns the class
attribute `SerialConnection._instance` (its only occurrence is the
`del` in `close` itself), every call to `close` fails with an
`AttributeError` and never completes normally; when `start_thread` was
never called, it fails already at `self.thread.join()`. -/
theorem C9_close_always_raises (s : ConnAttrs)
    (h : s.instanceDefined = false) :
    (∃ e, close s = .error e)
    ∧ (s.hasThread = false → close s = .error .threadAttr) := by
  rcases s with ⟨ht, han, hid⟩
  simp only at h
  subst h
  cases ht <;> cases han <;> simp [close]

/-- Witness for C9: a fresh connection (no reader thread, transport
still `None`, `_instance` never assigned). -/
theorem C9_close_always_raises_witness :
    close ⟨false, true, false⟩ = .error .threadAttr :=
  (C9_close_always_raises ⟨false, true, false⟩ rfl).2 rfl

/-- C10: with the link open, `send_color` with a channel value outside
[0,255] raises from byte construction (`ValueError`), with no clamping
and no silent drop. -/
theorem C10_out_of_range_raises (arduino : Option Bool)
    (h : isOpen arduino = true) (r g b : ℤ)
    (hout : r < 0 ∨ 255 < r ∨ g < 0 ∨ 255 < g ∨ b < 0 ∨ 255 < b) :
    send_color arduino r g b = .error .valueError := by
  obtain rfl := (isOpen_eq_true_iff arduino).mp h
  unfold send_color pyBytes
  rw [if_neg (by simp [isOpen]), if_neg ?_]
  intro hall
  have h3 := hall r (by simp)
  have h4 := hall g (by simp)
  have h5 := hall b (by simp)
  omega

/-- Witness for C10 at channel value 256. -/
theorem C10_out_of_range_raises_witness :
    send_color (some true) 256 0 0 = .error .valueError :=
  C10_out_of_range_raises (some true) rfl 256 0 0 (by omega)

/-! ## Theorems about the audio engine -/

/-- C1, counterexample: with the constructed values sample_rate = 44100
and decay_seconds = 1, a gated tick (measured level 0 at current level
1) does not decrease the current level by `1 / (44100 × 1)`: the code
subtracts `1 - 1 / (44100 × 1)`, leaving `1/44100`. -/
theorem C1_decay_amount_counterexample :
    (1 : ℚ) - (updateBand 44100 1 0 ⟨1, 1⟩).current ≠ 1 / (44100 * 1)
    ∧ (updateBand 44100 1 0 ⟨1, 1⟩).current = 1 / 44100 := by
  constructor <;>
    norm_num [updateBand, decay_rate, NOISE_GATE_THRESHOLD]

/-- C1, amended: for a band whose measured level does not exceed the
noise-gate threshold 0.02, the amount subtracted from its current level
this tick (before flooring at zero) equals
`1 − 1 / (sample_rate × decay_seconds)`; with sample_rate = 44100 and
decay_seconds = 1 this is `44099/44100` per tick. -/
theorem C1_decay_amount (current maxv level : ℚ)
    (h : level ≤ NOISE_GATE_THRESHOLD) :
    (updateBand 44100 1 level ⟨current, maxv⟩).current
      = max (current - (1 - 1 / (44100 * 1))) 0
    ∧ decay_rate 44100 1 = 44099 / 44100 := by
  have hng : ¬ level > NOISE_GATE_THRESHOLD := not_lt.mpr h
  constructor
  · simp [updateBand, decay_rate, hng]
  · norm_num [decay_rate]

/-- Witness for C1's amended theorem at current level 1, measured
level 0. -/
theorem C1_decay_amount_witness :
    (updateBand 44100 1 0 ⟨1, 1⟩).current
      = max ((1 : ℚ) - (1 - 1 / (44100 * 1))) 0
    ∧ decay_rate 44100 1 = 44099 / 44100 :=
  C1_decay_amount 1 1 0 (by norm_num [NOISE_GATE_THRESHOLD])

/-- The invariant carried by each band across ticks: the current level
is nonnegative, bounded by the running maximum, and the running maximum
stays at least its initial value 1. -/
def BandInv (s : BandState) : Prop :=
  0 ≤ s.current ∧ s.current ≤ s.maxv ∧ 1 ≤ s.maxv

lemma updateBand_inv {rate t : ℚ} (hd : 0 ≤ decay_rate rate t) (l : ℚ)
    {s : BandState} (h : BandInv s) :
    BandInv (updateBand rate t l s) := by
  obtain ⟨h0, h1, h2⟩ := h
  unfold updateBand
  split
  · rename_i hl
    rw [NOISE_GATE_THRESHOLD] at hl
    exact ⟨by linarith, le_max_right _ _, le_trans h2 (le_max_left _ _)⟩
  · exact ⟨le_max_right _ _, max_le (by linarith) (by linarith), h2⟩

lemma updateBand_maxv_le (rate t l : ℚ) (s : BandState) :
    s.maxv ≤ (updateBand rate t l s).maxv := by
  unfold updateBand
  split
  · exact le_max_left _ _
  · exact le_rfl

lemma runBand_inv {rate t : ℚ} (hd : 0 ≤ decay_rate rate t)
    (ls : List ℚ) {s : BandState} (h : BandInv s) :
    BandInv (runBand rate t ls s) := by
  induction ls generalizing s with
  | nil => exact h
  | cons a as ih =>
      simp only [runBand, List.foldl_cons] at ih ⊢
      exact ih (updateBand_inv hd a h)

lemma runBand_maxv_mono (rate t : ℚ) (ls : List ℚ) (s : BandState) :
    s.maxv ≤ (runBand rate t ls s).maxv := by
  induction ls generalizing s with
  | nil => exact le_rfl
  | cons a as ih =>
      simp only [runBand, List.foldl_cons] at ih ⊢
      exact le_trans (updateBand_maxv_le rate t a s) (ih _)

/-- C6: for every sequence of per-tick measured levels processed by a
band (sample_rate 44100, decay_seconds 1, initial state current 0,
maximum 1), after the gate/decay step `current / max ≤ 1` holds, and
the running maximum is monotonically non-decreasing over any
continuation of the run (never reset). -/
theorem C6_normalization_invariant (levels : List ℚ) :
    (runBand 44100 1 levels initBand).current
        / (runBand 44100 1 levels initBand).maxv ≤ 1
    ∧ ∀ more : List ℚ,
        (runBand 44100 1 levels initBand).maxv
          ≤ (runBand 44100 1 (levels ++ more) initBand).maxv := by
  have hd : (0 : ℚ) ≤ decay_rate 44100 1 := by norm_num [decay_rate]
  have hinv := runBand_inv hd levels
    (s := initBand) ⟨le_rfl, zero_le_one, le_rfl⟩
  constructor
  · exact div_le_one_of_le₀ hinv.2.1 (le_trans zero_le_one hinv.2.2)
  · intro more
    simp only [runBand, List.foldl_append]
    exact runBand_maxv_mono 44100 1 more _

/-- Per-channel mapping written from the claim's words for C7
(refinement comparison): `round` of the affine map, clamped. -/
def claim_round_channel (level multiplier : ℚ) : ℤ :=
  if level ≤ 1/20 then 0
  else max 0 (min 255 (round (25 + (255 - 25) * level * multiplier)))

/-- Per-channel mapping as amended for C7: Python `int()` truncation —
the floor, since the argument is nonnegative here — instead of
rounding. -/
def floor_channel (level multiplier : ℚ) : ℤ :=
  if level ≤ 1/20 then 0
  else max 0 (min 255 ⌊25 + (255 - 25) * level * multiplier⌋)

/-- C7, counterexample: at post-gain level 0.15 with multiplier 1 the
code truncates `25 + 230 × 0.15 = 59.5` to 59, while the claim's
`round` gives 60. -/
theorem C7_rgb_mapping_counterexample :
    amplitude_to_rgb (3/20) 1 = 59
    ∧ claim_round_channel (3/20) 1 = 60
    ∧ amplitude_to_rgb (3/20) 1 ≠ claim_round_channel (3/20) 1 := by
  refine ⟨?_, ?_, ?_⟩ <;>
    norm_num [amplitude_to_rgb, claim_round_channel, pyInt,
      Int.floor_eq_iff, round_eq]

lemma amplitude_eq_floor (level mult : ℚ) (hm : 0 ≤ mult) :
    amplitude_to_rgb level mult = floor_channel level mult := by
  unfold amplitude_to_rgb floor_channel
  split
  · rfl
  · rename_i hl
    push_neg at hl
    have hpos : (0 : ℚ) ≤ 25 + (255 - 25) * level * mult := by nlinarith
    rw [pyInt, if_pos hpos]

/-- C7, amended: for every post-gain band level, each channel returns 0
if the level ≤ 0.05, and otherwise the value
`min_rgb + (255 − min_rgb) × level × multiplier` truncated by Python
`int()` (the floor of this nonnegative quantity, not `round`) and
clamped to [0,255], with min_rgb = 25, multiplier 1.2 for bass and 1.0
for mid and treble. -/
theorem C7_rgb_mapping (bass mid treble : ℚ) :
    audio_to_rgb bass mid treble
      = (floor_channel bass (6/5), floor_channel mid 1,
         floor_channel treble 1) := by
  unfold audio_to_rgb
  rw [amplitude_eq_floor bass (6/5) (by norm_num),
    amplitude_eq_floor mid 1 zero_le_one,
    amplitude_eq_floor treble 1 zero_le_one]

lemma amplitude_mono {mult : ℚ} (hm : 0 ≤ mult) {l1 l2 : ℚ}
    (h1 : 1/20 < l1) (h12 : l1 ≤ l2) :
    amplitude_to_rgb l1 mult ≤ amplitude_to_rgb l2 mult := by
  unfold amplitude_to_rgb pyInt
  rw [if_neg (not_le.mpr h1), if_neg (not_le.mpr (lt_of_lt_of_le h1 h12))]
  have p1 : (0 : ℚ) ≤ 25 + (255 - 25) * l1 * mult := by nlinarith
  have p2 : (0 : ℚ) ≤ 25 + (255 - 25) * l2 * mult := by nlinarith
  rw [if_pos p1, if_pos p2]
  exact max_le_max le_rfl
    (min_le_min le_rfl (Int.floor_le_floor (by nlinarith)))

lemma amplitude_zero (mult l : ℚ) (h : l ≤ 1/20) :
    amplitude_to_rgb l mult = 0 := by
  rw [amplitude_to_rgb, if_pos h]

/-- C8: each channel of the audio-to-RGB mapping (bass multiplier 1.2,
mid/treble multiplier 1) is exactly 0 for every level ≤ 0.05, and is
monotonically non-decreasing between any two levels above 0.05. -/
theorem C8_rgb_monotone (l1 l2 : ℚ) (h12 : l1 ≤ l2) (h1 : 1/20 < l1) :
    amplitude_to_rgb l1 (6/5) ≤ amplitude_to_rgb l2 (6/5)
    ∧ amplitude_to_rgb l1 1 ≤ amplitude_to_rgb l2 1
    ∧ ∀ l : ℚ, l ≤ 1/20 →
        amplitude_to_rgb l (6/5) = 0 ∧ amplitude_to_rgb l 1 = 0 :=
  ⟨amplitude_mono (by norm_num) h1 h12,
   amplitude_mono zero_le_one h1 h12,
   fun l hl => ⟨amplitude_zero _ _ hl, amplitude_zero _ _ hl⟩⟩

/-- Witness for C8 at levels 0.1 ≤ 1 (above threshold) and 0 (below). -/
theorem C8_rgb_monotone_witness :
    amplitude_to_rgb (1/10) (6/5) ≤ amplitude_to_rgb 1 (6/5)
    ∧ amplitude_to_rgb (1/10) 1 ≤ amplitude_to_rgb 1 1
    ∧ amplitude_to_rgb 0 (6/5) = 0 ∧ amplitude_to_rgb 0 1 = 0 :=
  ⟨(C8_rgb_monotone (1/10) 1 (by norm_num) (by norm_num)).1,
   (C8_rgb_monotone (1/10) 1 (by norm_num) (by norm_num)).2.1,
   ((C8_rgb_monotone (1/10) 1 (by norm_num) (by norm_num)).2.2 0
      (by norm_num)).1,
   ((C8_rgb_monotone (1/10) 1 (by norm_num) (by norm_num)).2.2 0
      (by norm_num)).2⟩

/-! ## Theorems about the coordinator -/

/-- C2: on every mode switch, after the `unactiveTab` phase both
engines' `is_running()` flags are false (each engine that was running
has been stopped, the device mode set to Off), and the whole transition
factors as that deactivation followed by the tab-specific activation —
so every activation emission comes after the deactivation trace. -/
theorem C2_switch_stops_engines (s : UIState) (index : ℕ) :
    engineRunning (unactiveTab s).1.visRunning = false
    ∧ engineRunning (unactiveTab s).1.scrRunning = false
    ∧ on_tab_changed index s
        = ((unactiveTab s).2 ++ (activateTab index (unactiveTab s).1).1,
           (activateTab index (unactiveTab s).1).2) := by
  refine ⟨?_, ?_, ?_⟩
  · rcases s with ⟨vr, sr, sel, R, G, B⟩
    rcases vr with _ | b
    · simp [unactiveTab, engineRunning]
    · cases b <;> simp [unactiveTab, engineRunning]
  · rcases s with ⟨vr, sr, sel, R, G, B⟩
    rcases sr with _ | b
    · simp [unactiveTab, engineRunning]
    · cases b <;> simp [unactiveTab, engineRunning]
  · rcases index with _ | _ | _ | n <;>
      simp [on_tab_changed, activateTab]

end Jhagmag
